import Mathlib

/-!
Verification of the microvis core against its specification.

The Transform engine (src/microvis/core/_transform.py) is embedded with exact
rational arithmetic: a float64 matrix entry is modelled as the real (here
rational) number it denotes, so deterministic float expressions such as the
matrix product are modelled by the corresponding exact operations.  Where the
spec or a claim is about floating-point tolerance (np.allclose) the tolerance
test itself is embedded exactly (atol 1e-8, rtol 1e-5 over ℚ).  Where a claim
is about non-finite float values (division by a zero norm in `rotate`), a
dedicated scalar type `PFloat` marks every non-finite double explicitly.

The Model/binding base class (`ModelBase`, `FrontEndFor` from `_base.py`) is
not among the repository files; the binding and validation behaviour is
modelled from the spec (sections 4.2 and 4.3) on top of the field
declarations of src/microvis/core/nodes/node.py, which are in the repository.
-/

namespace Microvis

/-- A 4x4 matrix of exact scalars: the model of a float64 `np.ndarray` of
shape (4, 4). -/
abbrev Mat4 : Type := Matrix (Fin 4) (Fin 4) ℚ

/-- `class Transform(ModelBase)` of _transform.py: an (immutable, see
`Transform.Config_frozen`) wrapper around a 4x4 matrix.  The single field
`matrix` has `default_factory=lambda: np.eye(4)`. -/
structure Transform where
  matrix : Mat4
deriving DecidableEq

/-- `Transform.Config.frozen = True` (_transform.py lines 50-52): the pydantic
model is frozen, so attribute assignment after construction must fail. -/
def Transform.Config_frozen : Bool := true

/-- The argument type `Transform | ArrayLike` of `dot` and `__matmul__`: the
right operand is either another Transform or a raw 4x4 array. -/
inductive TransformLike where
  | t (tr : Transform)
  | raw (m : Mat4)

/-- The matrix a `Transform | ArrayLike` operand stands for: source lines
85-86 and 91-92 replace a Transform operand by its `.matrix`. -/
def TransformLike.mat : TransformLike → Mat4
  | .t tr => tr.matrix
  | .raw m => m

/-- `Transform.__matmul__` (_transform.py lines 83-87):
`Transform(matrix=self.matrix @ other)` after extracting `.matrix` from a
Transform operand. -/
def Transform.matmul (a : Transform) (other : TransformLike) : Transform :=
  ⟨a.matrix * other.mat⟩

/-- `Transform.dot` (_transform.py lines 89-93): identical to `__matmul__`
except that it uses `np.dot`, which for 2-D operands is the same matrix
product. -/
def Transform.dot (a : Transform) (other : TransformLike) : Transform :=
  ⟨a.matrix * other.mat⟩

/-- `Transform.T` (_transform.py lines 95-98): the transpose as a new
Transform. -/
def Transform.T (a : Transform) : Transform :=
  ⟨a.matrix.transpose⟩

/-- np.allclose tolerances: `np.allclose(a, b)` is
`all(|a - b| <= atol + rtol * |b|)` with `rtol=1e-5`, `atol=1e-8`. -/
def rtol : ℚ := 1 / 100000

/-- Absolute tolerance 1e-8 of np.allclose. -/
def atol : ℚ := 1 / 100000000

/-- `np.allclose(A, B)` on 4x4 matrices: every entry of `A` is within
`atol + rtol * |B entry|` of the matching entry of `B`. -/
def allcloseMat (A B : Mat4) : Bool :=
  decide (∀ i j : Fin 4, |A i j - B i j| ≤ atol + rtol * |B i j|)

/-- `Transform.is_null` (_transform.py lines 80-81):
`np.allclose(self.matrix, np.eye(4))`. -/
def Transform.is_null (t : Transform) : Bool :=
  allcloseMat t.matrix 1

/-- `Transform.chain` (_transform.py lines 196-210):
`reduce(lambda a, b: a @ b, transforms, cls())`, a left fold of `@` over the
argument list seeded with the identity transform `cls()`. -/
def Transform.chain (ts : List Transform) : Transform :=
  ts.foldl (fun a b => a.matmul (.t b)) ⟨1⟩

/-- C2.  Binary composition: for all 4x4 matrices A and B, `dot` on a
Transform operand, `@`, and `dot` on a raw 4x4 operand each return the
Transform whose matrix is exactly the matrix product A * B. -/
theorem dot_matmul_product (A B : Mat4) :
    (Transform.mk A).dot (.t (Transform.mk B)) = Transform.mk (A * B)
    ∧ (Transform.mk A).matmul (.t (Transform.mk B)) = Transform.mk (A * B)
    ∧ (Transform.mk A).dot (.raw B) = Transform.mk (A * B) :=
  ⟨rfl, rfl, rfl⟩

/-- C6.  `chain()` returns the identity transform, `chain(t)` returns `t`,
and `chain(t1, t2, t3)` has the matrix of `(t1 @ t2) @ t3`. -/
theorem chain_identity_fold :
    Transform.chain [] = Transform.mk 1
    ∧ (∀ t : Transform, Transform.chain [t] = t)
    ∧ (∀ t1 t2 t3 : Transform,
        (Transform.chain [t1, t2, t3]).matrix
          = ((t1.matmul (.t t2)).matmul (.t t3)).matrix) := by
  refine ⟨rfl, ?_, ?_⟩
  · intro t
    show Transform.mk ((1 : Mat4) * t.matrix) = t
    rw [Matrix.one_mul]
  · intro t1 t2 t3
    show ((1 : Mat4) * t1.matrix) * t2.matrix * t3.matrix = _
    rw [Matrix.one_mul]
    rfl

/-- A matrix that differs from the identity only in its first entry, by
1e-9: distinct from the identity yet inside the np.allclose tolerance. -/
def nearId : Mat4 :=
  Matrix.of ![![1 + 1 / 1000000000, 0, 0, 0], ![0, 1, 0, 0],
              ![0, 0, 1, 0], ![0, 0, 0, 1]]

/-- Unfolding lemma for `allcloseMat`: the boolean is true exactly when every
entry satisfies the tolerance inequality. -/
theorem allcloseMat_iff (A B : Mat4) :
    allcloseMat A B = true ↔
      ∀ i j : Fin 4, |A i j - B i j| ≤ atol + rtol * |B i j| := by
  simp [allcloseMat]

/-- C5 counterexample.  `nearId` is not the identity matrix, yet
`Transform(nearId).is_null()` returns True: `is_null` uses np.allclose, so a
non-identity matrix within tolerance refutes the claim that every
non-identity matrix yields False. -/
theorem is_null_not_identity_cex :
    nearId ≠ (1 : Mat4) ∧ (Transform.mk nearId).is_null = true := by
  constructor
  · intro h
    have h00 : nearId 0 0 = (1 : Mat4) 0 0 := by rw [h]
    rw [show nearId 0 0 = 1 + 1 / 1000000000 by rfl] at h00
    rw [Matrix.one_apply_eq] at h00
    norm_num at h00
  · rw [Transform.is_null, allcloseMat_iff]
    intro i j
    fin_cases i <;> fin_cases j <;>
      norm_num [nearId, Matrix.one_apply, atol, rtol, abs_le, Fin.ext_iff,
        Matrix.head_cons, Matrix.tail_cons, Matrix.head_fin_const,
        Matrix.cons_val_zero, Matrix.cons_val_one, Matrix.cons_val_two,
        Matrix.cons_val_three, Matrix.cons_val']

/-- C5 as amended.  `Transform().is_null()` is True, and `is_null` returns
False exactly when some entry lies outside the np.allclose tolerance of the
identity; a non-identity matrix within tolerance still returns True. -/
theorem is_null_tolerance :
    (Transform.mk 1).is_null = true
    ∧ (∀ M : Mat4,
        (∃ i j : Fin 4, atol + rtol * |(1 : Mat4) i j| < |M i j - (1 : Mat4) i j|) →
        (Transform.mk M).is_null = false)
    ∧ (∀ M : Mat4,
        (∀ i j : Fin 4, |M i j - (1 : Mat4) i j| ≤ atol + rtol * |(1 : Mat4) i j|) →
        (Transform.mk M).is_null = true) := by
  refine ⟨?_, ?_, ?_⟩
  · rw [Transform.is_null, allcloseMat_iff]
    intro i j
    rcases eq_or_ne i j with h | h
    · subst h
      norm_num [Matrix.one_apply_eq, atol, rtol]
    · norm_num [Matrix.one_apply_ne h, atol, rtol]
  · intro M h
    rcases h with ⟨i, j, hij⟩
    have hne : ¬ (∀ i j : Fin 4, |M i j - (1 : Mat4) i j| ≤ atol + rtol * |(1 : Mat4) i j|) := by
      intro hall
      exact absurd (hall i j) (not_le.mpr hij)
    rw [Transform.is_null]
    rw [Bool.eq_false_iff]
    intro htrue
    exact hne ((allcloseMat_iff _ _).mp htrue)
  · intro M h
    rw [Transform.is_null, allcloseMat_iff]
    exact h

/-- Shape of a rectangular nested list, as np.asarray would report it: the
row count and the common row length.  `none` models a ragged input, which
np.asarray rejects before the shape test. -/
def matShape (rows : List (List ℚ)) : Option (ℕ × ℕ) :=
  match rows with
  | [] => some (0, 0)
  | r :: rest =>
    if rest.all (fun s => s.length = r.length) then some (rows.length, r.length)
    else none

/-- Entries of a rectangular nested list as a 4x4 matrix (only used once the
shape check has passed, so the out-of-range default 0 is never read). -/
def toMat4 (rows : List (List ℚ)) : Mat4 :=
  Matrix.of fun i j => (rows.getD i []).getD j 0

/-- `Transform.__init__` (_transform.py lines 57-61): no argument means the
identity `np.eye(4)`; otherwise the input is converted to an array and
rejected with `ValueError("Expected 4x4 matrix, got ...")` unless its shape
is exactly (4, 4).  Nothing is stored when the check fails. -/
def Transform.init (m : Option (List (List ℚ))) : Except String Transform :=
  match m with
  | none => .ok ⟨1⟩
  | some rows =>
    match matShape rows with
    | none => .error "could not convert input to an array"
    | some s =>
      if s = (4, 4) then .ok ⟨toMat4 rows⟩ else .error "Expected 4x4 matrix"

/-- C9.  `Transform()` is the identity transform, and construction from any
rectangular input whose shape is not (4, 4) — in particular a 3x3 or a 4x5
matrix — fails with the shape error; the constructor raises before any state
is created (it returns only the error). -/
theorem init_shape_check :
    Transform.init none = .ok (Transform.mk 1)
    ∧ (∀ (rows : List (List ℚ)) (r c : ℕ), matShape rows = some (r, c) →
        (r, c) ≠ (4, 4) → Transform.init (some rows) = .error "Expected 4x4 matrix")
    ∧ Transform.init (some (List.replicate 3 (List.replicate 3 (0 : ℚ))))
        = .error "Expected 4x4 matrix"
    ∧ Transform.init (some (List.replicate 4 (List.replicate 5 (0 : ℚ))))
        = .error "Expected 4x4 matrix" := by
  refine ⟨rfl, ?_, ?_, ?_⟩
  · intro rows r c hshape hne
    rw [Transform.init, hshape]
    exact if_neg hne
  · rfl
  · rfl

/-- The lower-triangular-convention elementary matrix `translate` builds
(_transform.py lines 264-271): identity with the offset in the last row. -/
def translateMat (x y z : ℚ) : Mat4 :=
  Matrix.of ![![1, 0, 0, 0], ![0, 1, 0, 0], ![0, 0, 1, 0], ![x, y, z, 1]]

/-- `translate(offset)` (_transform.py lines 247-271): fails unless the
offset has exactly 3 components, otherwise builds `translateMat`. -/
def translate (offset : List ℚ) : Except String Mat4 :=
  match offset with
  | [x, y, z] => .ok (translateMat x y z)
  | _ => .error "offset must be a length 3 sequence"

/-- The diagonal matrix `scale` builds (_transform.py line 289):
`np.diag(np.concatenate([s, (1.0,)]))`. -/
def scaleMat (sx sy sz : ℚ) : Mat4 :=
  Matrix.of ![![sx, 0, 0, 0], ![0, sy, 0, 0], ![0, 0, sz, 0], ![0, 0, 0, 1]]

/-- `scale(s)` (_transform.py lines 274-289): fails unless given exactly 3
factors, otherwise builds `scaleMat`. -/
def scale (s : List ℚ) : Except String Mat4 :=
  match s with
  | [a, b, c] => .ok (scaleMat a b c)
  | _ => .error "scale must be a length 3 sequence"

/-- The positional default `(0, 0, 0, 1)` of `as_vec4`. -/
def posDefault : Fin 4 → ℚ := ![0, 0, 0, 1]

/-- The scale default `(1, 1, 1, 1)` used by `Transform.scaled`. -/
def scaleDefault : Fin 4 → ℚ := ![1, 1, 1, 1]

/-- `as_vec4(obj, default)` (_transform.py lines 292-325) restricted to the
1-row case the claims exercise: a flat vector with more than 4 entries is
rejected with a TypeError, a shorter one is padded on the right from
`default` (`new[:] = default; new[..., :len] = obj`). -/
def as_vec4 (v : List ℚ) (dflt : Fin 4 → ℚ) : Except String (Fin 4 → ℚ) :=
  if 4 < v.length then .error "cannot be converted to vec4"
  else .ok ![v.getD 0 (dflt 0), v.getD 1 (dflt 1), v.getD 2 (dflt 2), v.getD 3 (dflt 3)]

/-- Product of a 4-component row vector with a 4x4 matrix, as
`np.dot(coords, matrix)` computes it for a single promoted row. -/
def rowMulMat (v : Fin 4 → ℚ) (M : Mat4) : Fin 4 → ℚ :=
  fun j => v 0 * M 0 j + v 1 * M 1 j + v 2 * M 2 j + v 3 * M 3 j

/-- `Transform.map` (_transform.py lines 163-178) through the `_arg_to_vec4`
decorator (lines 14-42), for a flat input vector: the input is promoted to a
4-wide homogeneous row with default `(0, 0, 0, 1)`, multiplied on the right
by the matrix, and the single-row result is flattened back to a 4-element
vector. -/
def Transform.map (t : Transform) (coords : List ℚ) : Except String (List ℚ) :=
  match as_vec4 coords posDefault with
  | .error e => .error e
  | .ok row =>
    .ok [rowMulMat row t.matrix 0, rowMulMat row t.matrix 1,
         rowMulMat row t.matrix 2, rowMulMat row t.matrix 3]

/-- `Transform.translated` (_transform.py lines 104-116):
`pos = as_vec4(np.array(pos))`, then `self.dot(translate(pos[0, :3]))`; the
argument of `translate` always has exactly 3 components there, so it builds
`translateMat` of the first three promoted components. -/
def Transform.translated (t : Transform) (pos : List ℚ) : Except String Transform :=
  match as_vec4 pos posDefault with
  | .error e => .error e
  | .ok p => .ok ⟨t.matrix * translateMat (p 0) (p 1) (p 2)⟩

/-- `Transform.scaled` (_transform.py lines 141-161): the scale factors are
promoted with default `(1, 1, 1, 1)`; with a `center` the elementary matrix
is conjugated as `translate(-center) @ scale @ translate(center)`; the result
composes after the existing matrix via `dot`. -/
def Transform.scaled (t : Transform) (sf : List ℚ) (center : Option (List ℚ)) :
    Except String Transform :=
  match as_vec4 sf scaleDefault with
  | .error e => .error e
  | .ok s =>
    match center with
    | none => .ok ⟨t.matrix * scaleMat (s 0) (s 1) (s 2)⟩
    | some c =>
      match as_vec4 c posDefault with
      | .error e => .error e
      | .ok cv =>
        .ok ⟨t.matrix *
          (translateMat (-cv 0) (-cv 1) (-cv 2) * scaleMat (s 0) (s 1) (s 2) *
            translateMat (cv 0) (cv 1) (cv 2))⟩

/-- The matrix inverse `np.linalg.inv` computes on a non-singular matrix,
written with the adjugate so that it is executable over ℚ; it coincides with
Mathlib's `Matrix.inv` (see `invMat_eq_inv`). -/
def invMat (A : Mat4) : Mat4 :=
  A.det⁻¹ • A.adjugate

/-- `Transform.inv` (_transform.py lines 100-102): `np.linalg.inv` of the
matrix, which raises `LinAlgError("Singular matrix")` exactly when the
determinant is zero. -/
def Transform.inv (t : Transform) : Except String Transform :=
  if t.matrix.det = 0 then .error "Singular matrix" else .ok ⟨invMat t.matrix⟩

/-- `invMat` is Mathlib's matrix inverse. -/
theorem invMat_eq_inv (A : Mat4) : invMat A = A⁻¹ := by
  rw [Matrix.inv_def, invMat, Ring.inverse_eq_inv]

/-- C7.  For every invertible matrix A, `Transform(A).inv()` succeeds with
the inverse matrix, and inverting again returns exactly A (exact arithmetic,
hence in particular within any floating tolerance). -/
theorem inv_roundtrip (A : Mat4) (hA : A.det ≠ 0) :
    Transform.inv (Transform.mk A) = .ok (Transform.mk (invMat A))
    ∧ Transform.inv (Transform.mk (invMat A)) = .ok (Transform.mk A) := by
  have hunit : IsUnit A.det := isUnit_iff_ne_zero.mpr hA
  have hinv : (invMat A).det ≠ 0 := by
    rw [invMat_eq_inv, Matrix.det_nonsing_inv, Ring.inverse_eq_inv]
    exact inv_ne_zero hA
  constructor
  · rw [Transform.inv]
    exact if_neg hA
  · rw [Transform.inv]
    rw [if_neg hinv]
    rw [invMat_eq_inv, invMat_eq_inv, Matrix.nonsing_inv_nonsing_inv A hunit]

/-- C7 witness: the identity matrix is invertible and round-trips. -/
theorem inv_roundtrip_case :
    ((1 : Mat4).det ≠ 0)
    ∧ (Transform.inv (Transform.mk 1) = .ok (Transform.mk (invMat 1))
        ∧ Transform.inv (Transform.mk (invMat 1)) = .ok (Transform.mk 1)) := by
  have h : (1 : Mat4).det ≠ 0 := by
    rw [Matrix.det_one]
    norm_num
  exact ⟨h, inv_roundtrip 1 h⟩

/-- C8 as amended.  Translating the identity transform by a 3-vector
`(x, y, z)` and mapping the origin yields the homogeneous 4-vector
`(x, y, z, 1)`: the first three components recover the translation exactly
and the trailing component is the homogeneous 1. -/
theorem translated_map_homogeneous (x y z : ℚ) :
    ∃ t : Transform,
      (Transform.mk 1).translated [x, y, z] = .ok t
      ∧ t.map [0, 0, 0] = .ok [x, y, z, 1] := by
  refine ⟨Transform.mk (translateMat x y z), ?_, ?_⟩
  · show Except.ok (Transform.mk ((1 : Mat4) * _)) = _
    rw [Matrix.one_mul]
    norm_num [Matrix.cons_val_zero, Matrix.cons_val_one, Matrix.cons_val_two,
      Matrix.head_cons, Matrix.tail_cons, List.getD_cons_zero, List.getD_cons_succ]
  · show Except.ok _ = _
    norm_num [rowMulMat, translateMat, posDefault, Matrix.head_cons,
      Matrix.tail_cons, Matrix.head_fin_const, Matrix.cons_val_zero,
      Matrix.cons_val_one, Matrix.cons_val_two, Matrix.cons_val_three,
      Matrix.cons_val']

/-- C8 counterexample.  At v = (1, 2, 3) the mapped origin is the 4-vector
(1, 2, 3, 1), which is not equal — not even approximately, the lengths
differ (np.allclose raises a broadcast error there) — to the 3-vector v
itself, refuting the claim as stated. -/
theorem translated_map_cex :
    (Except.bind ((Transform.mk 1).translated [1, 2, 3])
        (fun t => t.map [0, 0, 0]) = .ok [1, 2, 3, 1])
    ∧ ([1, 2, 3, 1] : List ℚ).length ≠ ([1, 2, 3] : List ℚ).length := by
  constructor
  · have h1 : (Transform.mk 1).translated [1, 2, 3]
        = .ok (Transform.mk (translateMat 1 2 3)) := by
      show Except.ok (Transform.mk ((1 : Mat4) * _)) = _
      rw [Matrix.one_mul]
      norm_num [Matrix.cons_val_zero, Matrix.cons_val_one, Matrix.cons_val_two,
        Matrix.head_cons, Matrix.tail_cons, List.getD_cons_zero, List.getD_cons_succ]
    rw [h1]
    show (Transform.mk (translateMat 1 2 3)).map [0, 0, 0] = _
    show Except.ok _ = _
    norm_num [rowMulMat, translateMat, posDefault, Matrix.head_cons,
      Matrix.tail_cons, Matrix.head_fin_const, Matrix.cons_val_zero,
      Matrix.cons_val_one, Matrix.cons_val_two, Matrix.cons_val_three,
      Matrix.cons_val']
  · norm_num

/-- Rational stand-in for float64 π, the exact value of np.float64(np.pi);
`np.radians(angle)` multiplies by it and divides by 180. -/
def piF : ℚ := 884279719003555 / 281474976710656

/-- `np.radians(angle)` (_transform.py line 231): degrees to radians. -/
def radiansQ (d : ℚ) : ℚ := d * piF / 180

/-- Modelled: `math.cos` as a truncated Maclaurin series over ℚ.  The exact
transcendental value is not rationally representable; every theorem below
depends only on `cosApx` being a (finite) rational function of its input,
never on its numeric value. -/
def cosApx (x : ℚ) : ℚ :=
  1 - x * x / 2 + x * x * x * x / 24 - x * x * x * x * x * x / 720

/-- Modelled: `math.sin` as a truncated Maclaurin series over ℚ; see
`cosApx`. -/
def sinApx (x : ℚ) : ℚ :=
  x - x * x * x / 6 + x * x * x * x * x / 120

/-- Modelled: the float square root, exactly on perfect-square rationals
(the only inputs at which a theorem below evaluates it, in particular
`sqrtQ 0 = 0`). -/
def sqrtQ (q : ℚ) : ℚ :=
  (Nat.sqrt q.num.toNat : ℚ) / (Nat.sqrt q.den : ℚ)

/-- Rational model of `rotate(angle, axis)` (_transform.py lines 216-244)
used for composition facts: length check, axis normalisation by the norm,
Rodrigues matrix, final transpose.  Exact-arithmetic caveat: over ℚ a zero
norm makes the normalised components 0 rather than NaN; the `PFloat`
embedding `rotate` below is the faithful model of that regime and is the one
claim C10 is settled against. -/
def rotateQ (angle : ℚ) (axis : List ℚ) : Except String Mat4 :=
  match axis with
  | [a1, a2, a3] =>
    let r := radiansQ angle
    let c := cosApx r
    let s := sinApx r
    let n := sqrtQ (a1 * a1 + a2 * a2 + a3 * a3)
    let x := a1 / n
    let y := a2 / n
    let z := a3 / n
    let cx := (1 - c) * x
    let cy := (1 - c) * y
    let cz := (1 - c) * z
    .ok ((Matrix.of
      ![![cx * x + c, cy * x - z * s, cz * x + y * s, 0],
        ![cx * y + z * s, cy * y + c, cz * y - x * s, 0],
        ![cx * z - y * s, cy * z + x * s, cz * z + c, 0],
        ![0, 0, 0, 1]]).transpose)
  | _ => .error "axis must be a 3-element vector"

/-- `Transform.rotated` (_transform.py lines 118-139): composes the elementary
rotate matrix after the current one via `dot`; with an `about` pivot the
source chains `translated(-about) . dot(rotate) . translated(about)`. -/
def Transform.rotated (t : Transform) (angle : ℚ) (axis : List ℚ)
    (about : Option (List ℚ)) : Except String Transform :=
  match about with
  | none =>
    match rotateQ angle axis with
    | .error e => .error e
    | .ok r => .ok ⟨t.matrix * r⟩
  | some a =>
    match as_vec4 a posDefault with
    | .error e => .error e
    | .ok av =>
      match rotateQ angle axis with
      | .error e => .error e
      | .ok r =>
        .ok ⟨t.matrix * translateMat (-av 0) (-av 1) (-av 2) * r *
          translateMat (av 0) (av 1) (av 2)⟩

/-- The error taxonomy of the Model layer (spec section 7): a validation
error naming the offending field, or the immutability error of a frozen
model. -/
inductive VErr where
  | validation (field : String)
  | frozenModel
deriving DecidableEq

/-- Modelled from the spec (section 4.2; the pydantic `ModelBase` of
`_base.py` is not among the repository files): attribute assignment on a
frozen Model fails with an immutability error and no new state; `Transform`
is frozen (`Transform.Config_frozen`, from _transform.py lines 50-52). -/
def Transform.setMatrix (_t : Transform) (v : Mat4) : Except VErr Transform :=
  if Transform.Config_frozen then .error .frozenModel else .ok ⟨v⟩

/-- C4.  Transform instances are immutable: assigning to the `matrix` field
fails with the immutability error (so the receiver keeps its state), and
every mutator-looking operation — `dot`, `@`, `T`, `inv`, `translated`,
`scaled`, `rotated` (the last three shown on 3-component arguments, where
they succeed) — returns a newly constructed Transform whose matrix composes
the receiver's unchanged matrix, mutating nothing in place (all operations
of the embedding are pure). -/
theorem transform_frozen_ops (t : Transform) (m : Mat4) (o : TransformLike)
    (x y z angle : ℚ) :
    Transform.setMatrix t m = .error .frozenModel
    ∧ t.dot o = Transform.mk (t.matrix * o.mat)
    ∧ t.matmul o = Transform.mk (t.matrix * o.mat)
    ∧ t.T = Transform.mk t.matrix.transpose
    ∧ t.inv = (if t.matrix.det = 0 then .error "Singular matrix"
        else .ok (Transform.mk (invMat t.matrix)))
    ∧ t.translated [x, y, z] = .ok (Transform.mk (t.matrix * translateMat x y z))
    ∧ t.scaled [x, y, z] none = .ok (Transform.mk (t.matrix * scaleMat x y z))
    ∧ (∃ r : Mat4, t.rotated angle [x, y, z] none = .ok (Transform.mk (t.matrix * r))) := by
  refine ⟨rfl, rfl, rfl, rfl, rfl, ?_, ?_, ?_⟩
  · show Except.ok (Transform.mk (t.matrix * translateMat _ _ _)) = _
    norm_num [Matrix.cons_val_zero, Matrix.cons_val_one, Matrix.cons_val_two,
      Matrix.head_cons, Matrix.tail_cons, List.getD_cons_zero, List.getD_cons_succ]
  · show Except.ok (Transform.mk (t.matrix * scaleMat _ _ _)) = _
    norm_num [Matrix.cons_val_zero, Matrix.cons_val_one, Matrix.cons_val_two,
      Matrix.head_cons, Matrix.tail_cons, List.getD_cons_zero, List.getD_cons_succ]
  · exact ⟨_, rfl⟩

/-- Scalar model of an IEEE-754 double that tracks finiteness: `fin q` is the
finite double of exact value `q`, `nofin` is any non-finite double (inf,
-inf or nan).  Used where the code's behaviour on non-finite values matters
(the zero-norm path of `rotate`). -/
inductive PFloat where
  | fin (q : ℚ)
  | nofin
deriving DecidableEq

/-- IEEE addition on the model: finite + finite is finite with the exact sum
(no overflow occurs at the magnitudes the theorems use); any operand that is
non-finite gives a non-finite result (exact for nan, which is the only
non-finite value arising below). -/
def PFloat.add : PFloat → PFloat → PFloat
  | .fin a, .fin b => .fin (a + b)
  | _, _ => .nofin

/-- IEEE subtraction on the model; see `PFloat.add`. -/
def PFloat.sub : PFloat → PFloat → PFloat
  | .fin a, .fin b => .fin (a - b)
  | _, _ => .nofin

/-- IEEE multiplication on the model; see `PFloat.add`. -/
def PFloat.mul : PFloat → PFloat → PFloat
  | .fin a, .fin b => .fin (a * b)
  | _, _ => .nofin

/-- IEEE division on the model: division by (finite or non-finite) zero and
any non-finite operand give a non-finite result; in particular `0.0 / 0.0`
is nan, the case `rotate` hits on a zero axis. -/
def PFloat.div : PFloat → PFloat → PFloat
  | .fin a, .fin b => if b = 0 then .nofin else .fin (a / b)
  | _, _ => .nofin

instance : Add PFloat := ⟨PFloat.add⟩

instance : Sub PFloat := ⟨PFloat.sub⟩

instance : Mul PFloat := ⟨PFloat.mul⟩

instance : Div PFloat := ⟨PFloat.div⟩

/-- `rotate(angle, axis)` (_transform.py lines 216-244) over the
finiteness-tracking scalars: raises `ValueError("axis must be a 3-element
vector")` exactly when the axis does not have 3 entries; otherwise converts
the angle to radians, normalises the axis by its euclidean norm
(`np.linalg.norm`, finite on finite input, and 0.0 on the zero axis, making
each normalised component 0.0/0.0 = nan), and builds the transposed
Rodrigues matrix whose last row and column are the float literals 0.0 and
1.0. -/
def rotate (angle : ℚ) (axis : List ℚ) : Except String (Matrix (Fin 4) (Fin 4) PFloat) :=
  match axis with
  | [a1, a2, a3] =>
    let r := radiansQ angle
    let c : PFloat := .fin (cosApx r)
    let s : PFloat := .fin (sinApx r)
    let n : PFloat := .fin (sqrtQ (a1 * a1 + a2 * a2 + a3 * a3))
    let x := PFloat.fin a1 / n
    let y := PFloat.fin a2 / n
    let z := PFloat.fin a3 / n
    let cx := (PFloat.fin 1 - c) * x
    let cy := (PFloat.fin 1 - c) * y
    let cz := (PFloat.fin 1 - c) * z
    .ok ((Matrix.of
      ![![cx * x + c, cy * x - z * s, cz * x + y * s, .fin 0],
        ![cx * y + z * s, cy * y + c, cz * y - x * s, .fin 0],
        ![cx * z - y * s, cy * z + x * s, cz * z + c, .fin 0],
        ![.fin 0, .fin 0, .fin 0, .fin 1]]).transpose)
  | _ => .error "axis must be a 3-element vector"

/-- True exactly on `Except.error`. -/
def isErr {ε α : Type} : Except ε α → Bool
  | .error _ => true
  | .ok _ => false

/-- Division of a finite float by finite 0.0 is non-finite. -/
theorem PFloat.fin_div_fin_zero (a : ℚ) : PFloat.fin a / PFloat.fin 0 = PFloat.nofin := by
  show PFloat.div _ _ = _
  simp [PFloat.div]

/-- Any product with a non-finite right factor is non-finite. -/
theorem PFloat.mul_nofin (a : PFloat) : a * PFloat.nofin = PFloat.nofin := by
  show PFloat.mul _ _ = _
  cases a <;> rfl

/-- Any product with a non-finite left factor is non-finite. -/
theorem PFloat.nofin_mul (a : PFloat) : PFloat.nofin * a = PFloat.nofin := by
  show PFloat.mul _ _ = _
  cases a <;> rfl

/-- Any sum with a non-finite summand is non-finite. -/
theorem PFloat.nofin_add (a : PFloat) : PFloat.nofin + a = PFloat.nofin := by
  show PFloat.add _ _ = _
  cases a <;> rfl

/-- Any sum with a non-finite summand is non-finite. -/
theorem PFloat.add_nofin (a : PFloat) : a + PFloat.nofin = PFloat.nofin := by
  show PFloat.add _ _ = _
  cases a <;> rfl

/-- Any difference with a non-finite operand is non-finite. -/
theorem PFloat.nofin_sub (a : PFloat) : PFloat.nofin - a = PFloat.nofin := by
  show PFloat.sub _ _ = _
  cases a <;> rfl

/-- Any difference with a non-finite operand is non-finite. -/
theorem PFloat.sub_nofin (a : PFloat) : a - PFloat.nofin = PFloat.nofin := by
  show PFloat.sub _ _ = _
  cases a <;> rfl

/-- The square root model sends 0 to 0, as the float sqrt does exactly. -/
theorem sqrtQ_zero : sqrtQ 0 = 0 := by
  norm_num [sqrtQ]

/-- C10 counterexample.  At angle 90 and the all-zero axis, `rotate` returns
a matrix whose entry (0, 0) is non-finite but whose entry (3, 3) is the
finite number 1.0 — so it is not the case that the returned matrix entries
are (all) non-finite. -/
theorem rotate_finite_entry_cex :
    Except.map (fun M => (M 0 0, M 3 3)) (rotate 90 [0, 0, 0])
      = .ok (PFloat.nofin, PFloat.fin 1) := by
  show Except.map _ (Except.ok _) = _
  rw [Except.map]
  norm_num [Matrix.transpose_apply, Matrix.cons_val_zero, Matrix.cons_val_three,
    Matrix.head_cons, Matrix.tail_cons, Matrix.cons_val', sqrtQ_zero,
    PFloat.fin_div_fin_zero, PFloat.mul_nofin, PFloat.nofin_mul,
    PFloat.nofin_add, PFloat.add_nofin]

/-- The matrix `rotate` returns on an all-zero axis: the Rodrigues block is
nan throughout, the last row and column keep the literals 0.0 and 1.0. -/
def nanBlockMat : Matrix (Fin 4) (Fin 4) PFloat :=
  Matrix.of ![![.nofin, .nofin, .nofin, .fin 0],
              ![.nofin, .nofin, .nofin, .fin 0],
              ![.nofin, .nofin, .nofin, .fin 0],
              ![.fin 0, .fin 0, .fin 0, .fin 1]]

/-- C10 as amended.  `rotate(angle, axis)` raises the length error exactly
when the axis does not have 3 elements; the all-zero axis is accepted
without error, and the zero norm then makes every entry of the 3x3 Rodrigues
block non-finite, while the last row and column keep their finite literal
values 0.0 and 1.0. -/
theorem rotate_axis_check :
    (∀ (angle : ℚ) (axis : List ℚ),
        isErr (rotate angle axis) = true ↔ axis.length ≠ 3)
    ∧ (∀ angle : ℚ, ∃ M : Matrix (Fin 4) (Fin 4) PFloat,
        rotate angle [0, 0, 0] = .ok M
        ∧ (∀ i j : Fin 4, i.val < 3 → j.val < 3 → M i j = PFloat.nofin)
        ∧ (∀ i : Fin 4, i.val < 3 → M i 3 = PFloat.fin 0 ∧ M 3 i = PFloat.fin 0)
        ∧ M 3 3 = PFloat.fin 1) := by
  constructor
  · intro angle axis
    rcases axis with _ | ⟨a, _ | ⟨b, _ | ⟨c, _ | ⟨d, tl⟩⟩⟩⟩ <;>
      simp [rotate, isErr]
  · intro angle
    have h1 : (0 : ℚ) * 0 + 0 * 0 + 0 * 0 = 0 := by norm_num
    have hdiv : PFloat.fin 0 / PFloat.fin (sqrtQ 0) = PFloat.nofin := by
      rw [sqrtQ_zero]
      exact PFloat.fin_div_fin_zero 0
    refine ⟨nanBlockMat, ?_, by decide, by decide, by decide⟩
    show Except.ok _ = _
    rw [h1, hdiv]
    simp only [PFloat.mul_nofin, PFloat.nofin_mul, PFloat.add_nofin,
      PFloat.nofin_add, PFloat.nofin_sub, PFloat.sub_nofin]
    congr 1
    ext i j
    fin_cases i <;> fin_cases j <;> rfl

/-- The scene-graph Node of src/microvis/core/nodes/node.py (lines 12-32)
together with its binding state: the declared fields in order — `name`,
`parent`, `children`, `visible`, `opacity`, `order`, `interactive`,
`transform` — plus the optional attached backend of `FrontEndFor`
(modelled from the spec, section 4.3, as an optional opaque backend
identity; an unbound node carries `none`). -/
inductive Node where
  | mk (name : Option String) (parent : Option Node) (children : List Node)
      (visible : Bool) (opacity : ℚ) (order : ℤ) (interactive : Bool)
      (transform : Option Transform) (backend : Option ℕ)

/-- The `visible` field of a Node. -/
def Node.visible : Node → Bool
  | .mk _ _ _ v _ _ _ _ _ => v

/-- The `opacity` field of a Node. -/
def Node.opacity : Node → ℚ
  | .mk _ _ _ _ o _ _ _ _ => o

/-- The `order` field of a Node. -/
def Node.order : Node → ℤ
  | .mk _ _ _ _ _ o _ _ _ => o

/-- The attached backend of a Node, `none` when unbound. -/
def Node.backend : Node → Option ℕ
  | .mk _ _ _ _ _ _ _ _ b => b

/-- A Node with `visible` replaced and every other field kept. -/
def Node.withVisible : Node → Bool → Node
  | .mk n p ch _ o or i t b, v => .mk n p ch v o or i t b

/-- A Node with `opacity` replaced and every other field kept. -/
def Node.withOpacity : Node → ℚ → Node
  | .mk n p ch v _ or i t b, o => .mk n p ch v o or i t b

/-- A Node with `order` replaced and every other field kept. -/
def Node.withOrder : Node → ℤ → Node
  | .mk n p ch v o _ i t b, or => .mk n p ch v o or i t b

/-- A Node with all the declared defaults of node.py (name None, parent
None, children [], visible True, opacity 1.0, order 0, interactive False,
transform None) and no backend attached. -/
def Node.defaults : Node :=
  .mk none none [] true 1 0 false none none

/-- An argument value carried to a backend setter. -/
inductive Arg where
  | abool (b : Bool)
  | aint (n : ℤ)
  | afloat (q : ℚ)
deriving DecidableEq

/-- One observed backend invocation: the operation name and its single
argument. -/
structure BackendCall where
  op : String
  arg : Arg
deriving DecidableEq

/-- The deterministic field-to-operation naming convention of the
NodeBackend protocol (node.py lines 39-58): the field `f` is synchronised
through the backend method `_viz_set_f`. -/
def viz_op (field : String) : String := "_viz_set_" ++ field

/-- Modelled from the spec (section 4.3; `FrontEndFor` of `_base.py` is not
among the repository files): on a successful field mutation, the binding
layer invokes the operation named for the field on the attached backend
with the new value — exactly one call when a backend is attached, no call
when unbound. -/
def syncCalls (backend : Option ℕ) (field : String) (arg : Arg) : List BackendCall :=
  match backend with
  | some _ => [⟨viz_op field, arg⟩]
  | none => []

/-- Modelled from the spec (sections 4.2-4.3): assignment to `visible`.  A
Bool is always a valid value for the field, so the assignment stores the
value and dispatches to the backend when bound. -/
def Node.setVisible (n : Node) (v : Bool) : Except VErr (Node × List BackendCall) :=
  .ok (n.withVisible v, syncCalls n.backend "visible" (.abool v))

/-- Modelled from the spec (sections 4.2-4.3): assignment to `order`; an
int is always a valid value for the field. -/
def Node.setOrder (n : Node) (v : ℤ) : Except VErr (Node × List BackendCall) :=
  .ok (n.withOrder v, syncCalls n.backend "order" (.aint v))

/-- Modelled from the spec (sections 4.2-4.3): assignment to `opacity`,
whose declared constraint is `ge=0, le=1` (node.py line 19).  An
out-of-range value fails validation: the error is surfaced and no new state
or backend call is produced (the field keeps its prior value). -/
def Node.setOpacity (n : Node) (v : ℚ) : Except VErr (Node × List BackendCall) :=
  if 0 ≤ v ∧ v ≤ 1 then
    .ok (n.withOpacity v, syncCalls n.backend "opacity" (.afloat v))
  else .error (.validation "opacity")

/-- C1.  Unbound dispatch: with no backend attached, a valid assignment
(e.g. `visible = False`) succeeds, stores the value, and produces no
backend call; bound dispatch: with a backend attached, every successful
assignment to `order` produces exactly one call, to the operation
`_viz_set_order` named for the field, carrying the newly assigned value as
its only argument. -/
theorem binding_dispatch :
    (∀ n : Node, n.backend = none →
      n.setVisible false = .ok (n.withVisible false, [])
        ∧ (n.withVisible false).visible = false)
    ∧ (∀ (n : Node) (b : ℕ) (v : ℤ), n.backend = some b →
      n.setOrder v = .ok (n.withOrder v, [⟨"_viz_set_order", .aint v⟩])
        ∧ (n.withOrder v).order = v) := by
  constructor
  · intro n h
    constructor
    · rw [Node.setVisible, h]
      rfl
    · cases n
      rfl
  · intro n b v h
    constructor
    · rw [Node.setOrder, h]
      rfl
    · cases n
      rfl

/-- C3.  Assigning an out-of-range value to `opacity` (below 0 or above 1)
fails with the validation error naming the field; no updated node is
produced, so the field retains its prior value (the error return carries no
new state). -/
theorem opacity_out_of_range (n : Node) (v : ℚ) (h : v < 0 ∨ 1 < v) :
    n.setOpacity v = .error (.validation "opacity") := by
  rw [Node.setOpacity, if_neg]
  rcases h with h | h
  · intro hc
    exact absurd hc.1 (not_le.mpr h)
  · intro hc
    exact absurd hc.2 (not_le.mpr h)

/-- C3 witness: assigning opacity 3/2 (= 1.5) to a fresh Node fails with
the validation error. -/
theorem opacity_out_of_range_case :
    ((3 : ℚ) / 2 < 0 ∨ 1 < (3 : ℚ) / 2)
    ∧ Node.defaults.setOpacity (3 / 2) = .error (.validation "opacity") := by
  have h : (3 : ℚ) / 2 < 0 ∨ 1 < (3 : ℚ) / 2 := Or.inr (by norm_num)
  exact ⟨h, opacity_out_of_range Node.defaults (3 / 2) h⟩

end Microvis
